import Mathlib

/- Verification of the YouTube downloader app (src/app.py) against its
   natural-language specification.  The Python script is shallowly embedded:
   global process state (cloud detection, operating system, filesystem) is an
   explicit `Env` record, the external extraction library is an oracle
   function, and the option dictionary handed to the library is the record
   `YdlOpts`.  Emoji prefixes of user-facing messages are dropped from the
   embedded strings; the informative text is kept verbatim. -/

namespace YTApp

/-- Ambient process state read by src/app.py: the cloud-detection flag
(`IS_CLOUD_DEPLOYMENT`, line 20), `platform.system()`, whether `ffmpeg` is
on the PATH, the working and home directories, and the filesystem (existing
files and directories, as full path strings). -/
structure Env where
  isCloud : Bool
  osName : String
  ffmpegOnPath : Bool
  cwd : String
  home : String
  files : List String
  dirs : List String
deriving DecidableEq, Repr

/-- Python string truthiness: a string is truthy iff it is nonempty. -/
def pyStrTruthy (s : String) : Bool := s != ""

/-- Embeds `validate_path` (src/app.py lines 23-31).  The function is defined
in the script but never called; it is included for completeness. -/
def validate_path (isCloud : Bool) (path : String) : String :=
  if isCloud then "/tmp"
  else if pyStrTruthy path then path else "downloads"

/-- The fallback locations probed on Windows by `check_ffmpeg`
(src/app.py lines 43-47). -/
def windowsFfmpegCandidates (env : Env) : List String :=
  [env.cwd ++ "/ffmpeg.exe",
   env.cwd ++ "/ffmpeg/bin/ffmpeg.exe",
   env.home ++ "/ffmpeg/bin/ffmpeg.exe"]

/-- Embeds `check_ffmpeg` (src/app.py lines 34-51): probe the PATH first;
on Windows fall back to a fixed list of local copies; otherwise report
absence with `none`. -/
def check_ffmpeg (env : Env) : Option String :=
  if env.ffmpegOnPath then some "ffmpeg"
  else if env.osName == "Windows" then
    (windowsFfmpegCandidates env).find? (fun p => env.files.contains p)
  else none

/-- Embeds `show_ffmpeg_instructions` (src/app.py lines 53-103) as the
message text it displays; the branch taken depends on the cloud flag and on
`platform.system()`. -/
def show_ffmpeg_instructions (env : Env) : String :=
  if env.isCloud then
    "FFmpeg not available in the cloud container. Ensure packages.txt contains a line with ffmpeg and redeploy."
  else
    "FFmpeg is required but not found!\n" ++
    (if env.osName == "Windows" then
      "FFmpeg Installation (Windows)\nOption 1: Direct Download\n1. Download: https://www.gyan.dev/ffmpeg/builds/ffmpeg-release-essentials.zip\n2. Extract and copy bin/ffmpeg.exe next to this app\nOption 2: Chocolatey\nchoco install ffmpeg\n"
     else if env.osName == "Darwin" then
      "FFmpeg Installation (macOS)\nHomebrew (recommended)\nbrew install ffmpeg\nMacPorts\nsudo port install ffmpeg\n"
     else
      "FFmpeg Installation (Linux)\nUbuntu/Debian\nsudo apt update && sudo apt install -y ffmpeg\nFedora\nsudo dnf install -y ffmpeg\nArch\nsudo pacman -S ffmpeg\n") ++
    "After installing, restart the app."

/-- One entry of the `postprocessors` list of a yt-dlp option dictionary
(src/app.py lines 148-152). -/
structure PostProcessor where
  key : String
  preferredcodec : String
  preferredquality : String
deriving DecidableEq, Repr

/-- The option dictionary built by `download_content` and handed to
`yt_dlp.YoutubeDL` (src/app.py lines 133-164).  Absent keys are `none` or
`[]`.  The `cookiefile` key does not occur in this revision of src/app.py;
it is carried for the credential-file plumbing modelled from the spec. -/
structure YdlOpts where
  outtmpl : String
  quiet : Bool
  no_warnings : Bool
  progress : Bool
  prefer_ffmpeg : Bool
  ffmpeg_location : Option String
  format : Option String
  postprocessors : List PostProcessor
  merge_output_format : Option String
  cookiefile : Option String
deriving DecidableEq, Repr

/-- Embeds the option-dictionary construction of `download_content`
(src/app.py lines 133-164): the base dictionary, then the
content-kind-dependent format selection.  `quality = none` models Python
`None`; a quality of `0` is falsy in Python, hence the `q != 0` test. -/
def buildYdlOpts (temp_dir ffmpeg_path : String) (download_type : String)
    (quality : Option Nat) : YdlOpts :=
  let base : YdlOpts :=
    { outtmpl := temp_dir ++ "/%(title)s.%(ext)s",
      quiet := false,
      no_warnings := false,
      progress := true,
      prefer_ffmpeg := true,
      ffmpeg_location := if ffmpeg_path != "ffmpeg" then some ffmpeg_path else none,
      format := none,
      postprocessors := [],
      merge_output_format := none,
      cookiefile := none }
  if download_type == "audio" then
    { base with
      format := some "bestaudio/best",
      postprocessors := [{ key := "FFmpegExtractAudio", preferredcodec := "mp3", preferredquality := "192" }] }
  else
    match quality with
    | some q =>
      if q != 0 then
        { base with
          format := some ("bestvideo[height<=" ++ toString q ++ "]+bestaudio/best[height<=" ++ toString q ++ "]"),
          merge_output_format := some "mp4" }
      else
        { base with
          format := some "bestvideo+bestaudio/best",
          merge_output_format := some "mp4" }
    | none =>
      { base with
        format := some "bestvideo+bestaudio/best",
        merge_output_format := some "mp4" }

/-- The final path component of a path string, as `pathlib.Path(p).name`. -/
def baseName (p : String) : String :=
  String.mk (p.data.foldl (fun acc c => if c = '/' then [] else acc ++ [c]) [])

/-- The directory part of a path string: everything before the last slash
(empty for a bare file name). -/
def dirName (p : String) : String :=
  String.mk (((p.data.reverse.dropWhile (fun c => c ≠ '/')).drop 1).reverse)

/-- Embeds the target-directory decision of `download_content`
(src/app.py lines 115-123): `/tmp` in cloud mode; else the requested folder
when it is a nonempty string naming an existing directory; else the local
`temp_downloads` folder. -/
def decideTargetDir (isCloud : Bool) (folder : Option String) (dirs : List String) : String :=
  if isCloud then "/tmp"
  else
    match folder with
    | some f => if pyStrTruthy f && dirs.contains f then f else "temp_downloads"
    | none => "temp_downloads"

/-- Embeds `Path.mkdir(parents=True, exist_ok=...)` on a filesystem given as
the list of existing directories (src/app.py line 125): with `exist_ok`
set, an existing directory is not an error; otherwise it raises
`FileExistsError`. -/
def mkdirExistOk (dirs : List String) (d : String) (exist_ok : Bool) :
    Except String (List String) :=
  if dirs.contains d then
    if exist_ok then Except.ok dirs else Except.error ("FileExistsError: " ++ d)
  else Except.ok (d :: dirs)

/-- The output-directory resolution step of `download_content`
(src/app.py lines 115-125): decide the target directory, then create it
with `parents=True, exist_ok=True`.  Returns the resolved directory and
the updated filesystem. -/
def resolveOutputDirectory (isCloud : Bool) (folder : Option String)
    (dirs : List String) : Except String (String × List String) :=
  match mkdirExistOk dirs (decideTargetDir isCloud folder dirs) true with
  | Except.ok dirs2 => Except.ok (decideTargetDir isCloud folder dirs, dirs2)
  | Except.error e => Except.error e

/-- Embeds `cleanup_temp_files` (src/app.py lines 166-175): the files it
unlinks, given the files present at cleanup time.  It only acts locally and
only when the target directory is named `temp_downloads`; it removes the
direct children of that directory. -/
def cleanup_temp_files (env : Env) (temp_dir : String) (files : List String) :
    List String :=
  if !env.isCloud && (baseName temp_dir == "temp_downloads") then
    files.filter (fun p => dirName p == temp_dir)
  else []

/-- The files removed by the `finally` block of `download_content`
(src/app.py lines 224-228): `cleanup_temp_files` is invoked exactly when
not in cloud mode and the requested folder is `None` (which it is forced to
in cloud mode, line 118) or not an existing directory; `files` is the
filesystem content at cleanup time. -/
def deletedOf (env : Env) (download_folder : Option String)
    (files : List String) : List String :=
  let folder2 := if env.isCloud then none else download_folder
  if !env.isCloud &&
      (match folder2 with
       | none => true
       | some f => !(env.dirs.contains f)) then
    cleanup_temp_files env (decideTargetDir env.isCloud download_folder env.dirs) files
  else []

/-- Result of one invocation of the external extraction library for a URL
and an option dictionary: either the library finishes and the progress hook
has recorded a downloaded file that exists (src/app.py lines 188-192, 205),
or it finishes without such a file, or it raises with an error message. -/
inductive ExtractResult where
  | ok (downloadedFile : Option String)
  | err (msg : String)
deriving DecidableEq, Repr

/-- Observable behavior of one `download_content` call: the returned flag,
the error messages shown, how often the extraction library was invoked and
with which options, the chosen target directory, the files removed by the
cleanup step, and whether the script was halted by `st.stop()`. -/
structure DownloadResult where
  success : Bool
  errors : List String
  attempts : Nat
  optsUsed : Option YdlOpts
  targetDir : Option String
  deleted : List String
  stopped : Bool
deriving DecidableEq, Repr

/-- Embeds `download_content` (src/app.py lines 106-233).  `extract` is the
external extraction library.  The `finally` block runs the cleanup exactly
when the script is local and no existing user folder was passed
(src/app.py lines 224-228); it runs before the outer `except` handler, so
the removed files are the same on every extraction outcome, except that a
successfully downloaded file is itself present at cleanup time. -/
def download_content (env : Env) (extract : String → YdlOpts → ExtractResult)
    (url : String) ( output_path : String) (download_type : String)
    (quality : Option Nat) (download_folder : Option String) : DownloadResult :=
  match check_ffmpeg env with
  | none =>
    { success := false,
      errors := [show_ffmpeg_instructions env],
      attempts := 0, optsUsed := none, targetDir := none, deleted := [],
      stopped := true }
  | some ffmpeg_path =>
    let temp_dir := decideTargetDir env.isCloud download_folder env.dirs
    let ydl_opts := buildYdlOpts temp_dir ffmpeg_path download_type quality
    match extract url ydl_opts with
    | ExtractResult.err m =>
      { success := false,
        errors := ["Download failed: " ++ m],
        attempts := 1, optsUsed := some ydl_opts, targetDir := some temp_dir,
        deleted := deletedOf env download_folder env.files,
        stopped := false }
    | ExtractResult.ok none =>
      { success := false, errors := [],
        attempts := 1, optsUsed := some ydl_opts, targetDir := some temp_dir,
        deleted := deletedOf env download_folder env.files,
        stopped := false }
    | ExtractResult.ok (some f) =>
      { success := true, errors := [],
        attempts := 1, optsUsed := some ydl_opts, targetDir := some temp_dir,
        deleted := deletedOf env download_folder (env.files ++ [f]),
        stopped := false }

/-- Result of one form submission in `main`: whether `download_content` was
invoked and which validation error, if any, was shown. -/
structure SubmitResult where
  orchestratorInvoked : Bool
  validationError : Option String
deriving DecidableEq, Repr

/-- Embeds the submission handling of `main` (src/app.py lines 318-329):
`if not youtube_url` rejects exactly the empty string (Python string
falsiness); every other string reaches `download_content`. -/
def handle_submission (youtube_url : String) : SubmitResult :=
  if youtube_url == "" then
    { orchestratorInvoked := false,
      validationError := some "Please enter a YouTube URL" }
  else
    { orchestratorInvoked := true, validationError := none }

/-- Modelled from the spec: the credential-file plumbing of section 4.2
step 3 (supplying the uploaded cookie file to the extraction library) is
absent from this revision of src/app.py; per the spec, when a credential
file is provided its reference is placed into the option dictionary handed
to the library. -/
def applyCookieFile (opts : YdlOpts) (credentialFile : Option String) : YdlOpts :=
  match credentialFile with
  | some c => { opts with cookiefile := some c }
  | none => opts

/-- Modelled from the spec: the extraction library is external; per section
6 of the spec, on success it writes a file named from the reported title
with an extension chosen by the selected format (the fixed audio codec for
an audio extraction, else the merge container). -/
def outputExtension (opts : YdlOpts) : String :=
  match opts.postprocessors.find? (fun pp => pp.key == "FFmpegExtractAudio") with
  | some pp => pp.preferredcodec
  | none =>
    match opts.merge_output_format with
    | some m => m
    | none => "mp4"

/-- Modelled from the spec: the path of the output file produced by a
simulated successful extraction, for the end-to-end scenarios of section
8. -/
def simulatedSuccessPath (opts : YdlOpts) (title : String) : String :=
  title ++ "." ++ outputExtension opts

/-- Result of one attempt of the extraction library under a given client
identity, as classified by section 7 of the spec: success, the
access-denied (HTTP 403) class, or any other error class. -/
inductive AttemptOutcome where
  | success (path : String)
  | accessDenied (msg : String)
  | otherError (msg : String)
deriving DecidableEq, Repr

/-- The terminal DownloadOutcome value of section 3 of the spec. -/
structure Outcome where
  success : Bool
  path : Option String
  errorText : Option String
deriving DecidableEq, Repr

/-- Modelled from the spec: the troubleshooting guidance returned when
every client identity fails with the access-denied class (section 4.2
step 4: suspected age/region/membership gating, or supplying a credential
file is suggested). -/
def troubleshootingMessage : String :=
  "Access was denied for every client identity. The content may be age-, region-, or membership-gated; consider supplying a credential (cookies) file."

/-- Modelled from the spec: the client-identity fallback policy of section
4.2 step 4 is absent from this revision of src/app.py (the script makes a
single attempt with no identity list); reconstructed from the spec.  Given
the per-identity attempt behavior and the ordered identity list, it walks
the list: success stops with a success outcome; an access-denied failure
advances to the next identity and retries the whole request; any other
error aborts with the error surfaced verbatim; an exhausted list yields a
failure outcome carrying troubleshooting guidance.  Also returns the
number of attempts made. -/
def runWithFallback (attempt : String → AttemptOutcome) :
    List String → Outcome × Nat
  | [] => ({ success := false, path := none, errorText := some troubleshootingMessage }, 0)
  | ident :: rest =>
    match attempt ident with
    | AttemptOutcome.success p =>
      ({ success := true, path := some p, errorText := none }, 1)
    | AttemptOutcome.accessDenied _ =>
      ((runWithFallback attempt rest).1, (runWithFallback attempt rest).2 + 1)
    | AttemptOutcome.otherError m =>
      ({ success := false, path := none, errorText := some m }, 1)

/- ------------------------------------------------------------------ -/
/- Claim theorems                                                      -/
/- ------------------------------------------------------------------ -/

/-- C5: for a VIDEO request with a nonzero quality cap Q, the format
selector placed in the constructed options is exactly two alternatives
separated by a slash, and both of them carry the `height<=Q` constraint
(the primary `bestvideo[height<=Q]+bestaudio` selection and the fallback
combined `best[height<=Q]` selection); the merge target is the single
container format mp4. -/
theorem claim_C5_video_cap_selector (temp_dir ffmpeg_path : String) (q : Nat)
    (hq : q ≠ 0) :
    (buildYdlOpts temp_dir ffmpeg_path "video" (some q)).format =
      some (("bestvideo[height<=" ++ toString q ++ "]+bestaudio") ++ "/" ++
            ("best[height<=" ++ toString q ++ "]")) ∧
    (buildYdlOpts temp_dir ffmpeg_path "video" (some q)).merge_output_format =
      some "mp4" := by
  have hq2 : (q != 0) = true := by simpa using hq
  have h1 : (buildYdlOpts temp_dir ffmpeg_path "video" (some q)).format =
      some ("bestvideo[height<=" ++ toString q ++ "]+bestaudio/best[height<=" ++
        toString q ++ "]") := by
    simp [buildYdlOpts, hq2]
  constructor
  · rw [h1]
    apply congrArg
    apply String.ext
    simp [String.data_append, List.append_assoc,
      show "]+bestaudio/best[height<=".data =
        "]+bestaudio".data ++ "/".data ++ "best[height<=".data from by decide]
  · simp [buildYdlOpts, hq2]

/-- Witness for C5 at the concrete cap 480. -/
theorem claim_C5_witness :
    (buildYdlOpts "temp_downloads" "ffmpeg" "video" (some 480)).format =
      some (("bestvideo[height<=" ++ toString (480 : Nat) ++ "]+bestaudio") ++ "/" ++
            ("best[height<=" ++ toString (480 : Nat) ++ "]")) ∧
    (buildYdlOpts "temp_downloads" "ffmpeg" "video" (some 480)).merge_output_format =
      some "mp4" :=
  claim_C5_video_cap_selector "temp_downloads" "ffmpeg" 480 (by decide)

/-- C6: for an AUDIO request, whatever the quality value, the constructed
options select the best audio-only stream (`bestaudio`, with the generic
`best` fallback) and direct post-processing to the fixed target codec mp3
at the fixed target bitrate 192. -/
theorem claim_C6_audio_fixed_codec (temp_dir ffmpeg_path : String)
    (q : Option Nat) :
    (buildYdlOpts temp_dir ffmpeg_path "audio" q).format = some "bestaudio/best" ∧
    (buildYdlOpts temp_dir ffmpeg_path "audio" q).postprocessors =
      [{ key := "FFmpegExtractAudio", preferredcodec := "mp3",
         preferredquality := "192" }] :=
  ⟨rfl, rfl⟩

/-- C2: whenever a credential file is supplied, the option dictionary
handed to the extraction library carries a reference to it (for every
content kind and quality); in particular an AUDIO request with no quality
cap and a credential file yields options containing the credential file,
and a simulated successful extraction produces a path ending in the fixed
audio extension `.mp3`. -/
theorem claim_C2_credential_file (temp_dir ffmpeg_path cookie title : String)
    (download_type : String) (q : Option Nat) :
    (applyCookieFile (buildYdlOpts temp_dir ffmpeg_path download_type q)
        (some cookie)).cookiefile = some cookie ∧
    (applyCookieFile (buildYdlOpts temp_dir ffmpeg_path "audio" none)
        (some cookie)).cookiefile = some cookie ∧
    (∃ stem, simulatedSuccessPath
        (applyCookieFile (buildYdlOpts temp_dir ffmpeg_path "audio" none)
          (some cookie)) title = stem ++ ".mp3") := by
  refine ⟨rfl, rfl, ⟨title, ?_⟩⟩
  show (title ++ ".") ++ "mp3" = title ++ ".mp3"
  apply String.ext
  simp [String.data_append, List.append_assoc,
    show ".mp3".data = ".".data ++ "mp3".data from by decide]

/-- C3 counterexample: the URL consisting of a single space is
whitespace-only and nonempty, yet the submission handler invokes the
orchestrator and shows no validation error, because the source only tests
Python string falsiness (`if not youtube_url`), which rejects exactly the
empty string. -/
theorem claim_C3_counterexample :
    (" ").data.all Char.isWhitespace = true ∧ (" " : String) ≠ "" ∧
    (handle_submission " ").orchestratorInvoked = true ∧
    (handle_submission " ").validationError = none :=
  ⟨by decide, by decide, rfl, rfl⟩

/-- C3 amended: for every form submission whose URL is the empty string,
the orchestrator is never invoked and a validation error is shown; every
nonempty URL, including whitespace-only ones, does invoke the
orchestrator. -/
theorem claim_C3_empty_url_rejected (url : String) :
    (url = "" → (handle_submission url).orchestratorInvoked = false ∧
      (handle_submission url).validationError =
        some "Please enter a YouTube URL") ∧
    (url ≠ "" → (handle_submission url).orchestratorInvoked = true) := by
  constructor
  · rintro rfl
    exact ⟨rfl, rfl⟩
  · intro h
    simp [handle_submission, h]

/-- Witness for the amended C3 at the empty URL. -/
theorem claim_C3_witness :
    (handle_submission "").orchestratorInvoked = false ∧
    (handle_submission "").validationError = some "Please enter a YouTube URL" :=
  (claim_C3_empty_url_rejected "").1 rfl

/-- C4: when the transcoder executable cannot be located, the download
operation fails, shows exactly the platform-specific instructional
message, halts, and never invokes the extraction library (zero attempts,
no options built). -/
theorem claim_C4_missing_transcoder (env : Env)
    (extract : String → YdlOpts → ExtractResult) (url op ty : String)
    (q : Option Nat) (folder : Option String)
    (h : check_ffmpeg env = none) :
    (download_content env extract url op ty q folder).success = false ∧
    (download_content env extract url op ty q folder).attempts = 0 ∧
    (download_content env extract url op ty q folder).optsUsed = none ∧
    (download_content env extract url op ty q folder).errors =
      [show_ffmpeg_instructions env] ∧
    (download_content env extract url op ty q folder).stopped = true := by
  simp [download_content, h]

/-- Witness for C4 on a local Linux host with no ffmpeg anywhere. -/
theorem claim_C4_witness :
    (download_content ⟨false, "Linux", false, "/app", "/root", [], []⟩
      (fun _ _ => ExtractResult.ok none) "https://example/video"
      "temp_downloads" "video" none none).success = false ∧
    (download_content ⟨false, "Linux", false, "/app", "/root", [], []⟩
      (fun _ _ => ExtractResult.ok none) "https://example/video"
      "temp_downloads" "video" none none).attempts = 0 ∧
    (download_content ⟨false, "Linux", false, "/app", "/root", [], []⟩
      (fun _ _ => ExtractResult.ok none) "https://example/video"
      "temp_downloads" "video" none none).optsUsed = none ∧
    (download_content ⟨false, "Linux", false, "/app", "/root", [], []⟩
      (fun _ _ => ExtractResult.ok none) "https://example/video"
      "temp_downloads" "video" none none).errors =
      [show_ffmpeg_instructions ⟨false, "Linux", false, "/app", "/root", [], []⟩] ∧
    (download_content ⟨false, "Linux", false, "/app", "/root", [], []⟩
      (fun _ _ => ExtractResult.ok none) "https://example/video"
      "temp_downloads" "video" none none).stopped = true :=
  claim_C4_missing_transcoder ⟨false, "Linux", false, "/app", "/root", [], []⟩
    (fun _ _ => ExtractResult.ok none) "https://example/video"
    "temp_downloads" "video" none none rfl

/-- C10: the `output_path` parameter of `download_content` is never read;
two invocations differing only in that argument produce identical results
(same options, same target directory, same outcome). -/
theorem claim_C10_output_path_unused (env : Env)
    (extract : String → YdlOpts → ExtractResult) (url op1 op2 ty : String)
    (q : Option Nat) (folder : Option String) :
    download_content env extract url op1 ty q folder =
      download_content env extract url op2 ty q folder := rfl

/-- When every identity in the list fails with the access-denied class,
the fallback orchestrator returns the troubleshooting failure outcome
after exactly one attempt per identity. -/
theorem runWithFallback_all_denied (attempt : String → AttemptOutcome) :
    ∀ ids : List String,
    (∀ i ∈ ids, ∃ m, attempt i = AttemptOutcome.accessDenied m) →
    runWithFallback attempt ids =
      ({ success := false, path := none,
         errorText := some troubleshootingMessage }, ids.length)
  | [], _ => rfl
  | ident :: rest, h => by
    obtain ⟨m, hm⟩ := h ident (by simp)
    have ih := runWithFallback_all_denied attempt rest (fun i hi => h i (by simp [hi]))
    simp [runWithFallback, hm, ih]

/-- C1: the client-identity fallback.  If the first identity fails with
the access-denied class and the second succeeds, the final outcome is
success and exactly two attempts are made; if every identity in the list
fails with the access-denied class, the final outcome is failure carrying
the troubleshooting guidance and exactly one attempt per identity is made,
hence no more than the length of the identity list. -/
theorem claim_C1_identity_fallback
    (attemptA attemptB : String → AttemptOutcome) (i1 i2 : String)
    (rest ids : List String) (m p : String)
    (h1 : attemptA i1 = AttemptOutcome.accessDenied m)
    (h2 : attemptA i2 = AttemptOutcome.success p)
    (hall : ∀ i ∈ ids, ∃ m2, attemptB i = AttemptOutcome.accessDenied m2) :
    runWithFallback attemptA (i1 :: i2 :: rest) =
      ({ success := true, path := some p, errorText := none }, 2) ∧
    (runWithFallback attemptB ids).1 =
      { success := false, path := none,
        errorText := some troubleshootingMessage } ∧
    (runWithFallback attemptB ids).2 = ids.length ∧
    (runWithFallback attemptB ids).2 ≤ ids.length := by
  refine ⟨by simp [runWithFallback, h1, h2], ?_, ?_, ?_⟩ <;>
    rw [runWithFallback_all_denied attemptB ids hall]

/-- Witness for C1: an attempt behavior denying the mobile identity and
succeeding on the web identity, and one denying every identity, on the
two-element identity list. -/
theorem claim_C1_witness :
    runWithFallback
      (fun i => if i == "ios" then
          AttemptOutcome.accessDenied "HTTP Error 403: Forbidden"
        else AttemptOutcome.success "temp_downloads/video.mp4")
      ["ios", "web"] =
      ({ success := true, path := some "temp_downloads/video.mp4",
         errorText := none }, 2) ∧
    (runWithFallback
      (fun _ => AttemptOutcome.accessDenied "HTTP Error 403: Forbidden")
      ["ios", "web"]).1 =
      { success := false, path := none,
        errorText := some troubleshootingMessage } ∧
    (runWithFallback
      (fun _ => AttemptOutcome.accessDenied "HTTP Error 403: Forbidden")
      ["ios", "web"]).2 = 2 ∧
    (runWithFallback
      (fun _ => AttemptOutcome.accessDenied "HTTP Error 403: Forbidden")
      ["ios", "web"]).2 ≤ 2 :=
  claim_C1_identity_fallback
    (fun i => if i == "ios" then
        AttemptOutcome.accessDenied "HTTP Error 403: Forbidden"
      else AttemptOutcome.success "temp_downloads/video.mp4")
    (fun _ => AttemptOutcome.accessDenied "HTTP Error 403: Forbidden")
    "ios" "web" [] ["ios", "web"]
    "HTTP Error 403: Forbidden" "temp_downloads/video.mp4"
    rfl rfl (fun i _ => ⟨"HTTP Error 403: Forbidden", rfl⟩)

/-- C7: an extraction failure of a class other than access-denied aborts
after exactly one attempt with a failure outcome preserving the original
error text: in the fallback orchestrator no further identity is tried and
the error is surfaced verbatim, and in `download_content` the library is
invoked once and the message shown embeds the original error text. -/
theorem claim_C7_other_error_single_attempt
    (attempt : String → AttemptOutcome) (ident : String) (rest : List String)
    (m : String)
    (h : attempt ident = AttemptOutcome.otherError m)
    (env : Env) (extract : String → YdlOpts → ExtractResult)
    (url op ty : String) (q : Option Nat) (folder : Option String)
    (fp : String)
    (hf : check_ffmpeg env = some fp)
    (hx : ∀ u opts, extract u opts = ExtractResult.err m) :
    runWithFallback attempt (ident :: rest) =
      ({ success := false, path := none, errorText := some m }, 1) ∧
    (download_content env extract url op ty q folder).success = false ∧
    (download_content env extract url op ty q folder).attempts = 1 ∧
    (download_content env extract url op ty q folder).errors =
      ["Download failed: " ++ m] := by
  refine ⟨by simp [runWithFallback, h], ?_, ?_, ?_⟩ <;>
    simp [download_content, hf, hx]

/-- C8: resolving the output directory is idempotent.  In any fixed
environment (cloud flag and requested folder unchanged), the first
resolution returns a directory that exists afterwards, and resolving again
returns the same directory, leaves the filesystem unchanged, and does not
error even though the directory already exists. -/
theorem claim_C8_resolve_idempotent (isCloud : Bool) (folder : Option String)
    (dirs : List String) :
    ∃ d dirs1,
      resolveOutputDirectory isCloud folder dirs = Except.ok (d, dirs1) ∧
      resolveOutputDirectory isCloud folder dirs1 = Except.ok (d, dirs1) ∧
      dirs1.contains d = true := by
  cases isCloud with
  | true =>
    by_cases h : dirs.contains "/tmp" = true
    · have h2 : "/tmp" ∈ dirs := by simpa using h
      exact ⟨"/tmp", dirs,
        by simp [resolveOutputDirectory, decideTargetDir, mkdirExistOk, h2],
        by simp [resolveOutputDirectory, decideTargetDir, mkdirExistOk, h2], h⟩
    · have h2 : "/tmp" ∉ dirs := by simpa using h
      refine ⟨"/tmp", "/tmp" :: dirs, ?_, ?_, ?_⟩
      · simp [resolveOutputDirectory, decideTargetDir, mkdirExistOk, h2]
      · simp [resolveOutputDirectory, decideTargetDir, mkdirExistOk]
      · simp
  | false =>
    cases folder with
    | none =>
      by_cases h : dirs.contains "temp_downloads" = true
      · have h2 : "temp_downloads" ∈ dirs := by simpa using h
        exact ⟨"temp_downloads", dirs,
          by simp [resolveOutputDirectory, decideTargetDir, mkdirExistOk, h2],
          by simp [resolveOutputDirectory, decideTargetDir, mkdirExistOk, h2], h⟩
      · have h2 : "temp_downloads" ∉ dirs := by simpa using h
        refine ⟨"temp_downloads", "temp_downloads" :: dirs, ?_, ?_, ?_⟩
        · simp [resolveOutputDirectory, decideTargetDir, mkdirExistOk, h2]
        · simp [resolveOutputDirectory, decideTargetDir, mkdirExistOk]
        · simp
    | some f =>
      by_cases ht : pyStrTruthy f = true
      · by_cases hm : dirs.contains f = true
        · have hm2 : f ∈ dirs := by simpa using hm
          exact ⟨f, dirs,
            by simp [resolveOutputDirectory, decideTargetDir, mkdirExistOk, ht, hm2],
            by simp [resolveOutputDirectory, decideTargetDir, mkdirExistOk, ht, hm2], hm⟩
        · have hm2 : f ∉ dirs := by simpa using hm
          by_cases hft : f = "temp_downloads"
          · subst hft
            refine ⟨"temp_downloads", "temp_downloads" :: dirs, ?_, ?_, ?_⟩
            · simp [resolveOutputDirectory, decideTargetDir, mkdirExistOk, ht, hm2]
            · simp [resolveOutputDirectory, decideTargetDir, mkdirExistOk, ht]
            · simp
          · by_cases hmt : dirs.contains "temp_downloads" = true
            · have hmt2 : "temp_downloads" ∈ dirs := by simpa using hmt
              exact ⟨"temp_downloads", dirs,
                by simp [resolveOutputDirectory, decideTargetDir, mkdirExistOk, ht, hm2, hmt2],
                by simp [resolveOutputDirectory, decideTargetDir, mkdirExistOk, ht, hm2, hmt2],
                hmt⟩
            · have hmt2 : "temp_downloads" ∉ dirs := by simpa using hmt
              refine ⟨"temp_downloads", "temp_downloads" :: dirs, ?_, ?_, ?_⟩
              · simp [resolveOutputDirectory, decideTargetDir, mkdirExistOk, ht, hm2, hmt2]
              · simp [resolveOutputDirectory, decideTargetDir, mkdirExistOk, ht, hm2, hft]
              · simp
      · have ht2 : pyStrTruthy f = false := Bool.eq_false_iff.mpr ht
        by_cases hmt : dirs.contains "temp_downloads" = true
        · have hmt2 : "temp_downloads" ∈ dirs := by simpa using hmt
          exact ⟨"temp_downloads", dirs,
            by simp [resolveOutputDirectory, decideTargetDir, mkdirExistOk, ht2, hmt2],
            by simp [resolveOutputDirectory, decideTargetDir, mkdirExistOk, ht2, hmt2],
            hmt⟩
        · have hmt2 : "temp_downloads" ∉ dirs := by simpa using hmt
          refine ⟨"temp_downloads", "temp_downloads" :: dirs, ?_, ?_, ?_⟩
          · simp [resolveOutputDirectory, decideTargetDir, mkdirExistOk, ht2, hmt2]
          · simp [resolveOutputDirectory, decideTargetDir, mkdirExistOk, ht2]
          · simp

/-- Files removed by the cleanup step when the target directory is the
local `temp_downloads` folder are direct children of that folder. -/
theorem cleanup_local_subset (env : Env) (files : List String)
    (hc : env.isCloud = false) :
    ∀ f ∈ cleanup_temp_files env "temp_downloads" files,
      dirName f = "temp_downloads" := by
  intro f hf
  unfold cleanup_temp_files at hf
  simp [hc, show baseName "temp_downloads" = "temp_downloads" from by decide,
    List.mem_filter] at hf
  exact hf.2

/-- Every file the cleanup step of `download_content` removes lies directly
inside the local `temp_downloads` folder. -/
theorem deletedOf_subset (env : Env) (folder : Option String)
    (files : List String) :
    ∀ f ∈ deletedOf env folder files, dirName f = "temp_downloads" := by
  intro f hf
  unfold deletedOf at hf
  cases hcl : env.isCloud with
  | true => rw [hcl] at hf; simp at hf
  | false =>
    rw [hcl] at hf
    cases folder with
    | none =>
      simp [decideTargetDir] at hf
      exact cleanup_local_subset env files hcl f hf
    | some g =>
      by_cases hm : env.dirs.contains g = true
      · have hm2 : g ∈ env.dirs := by simpa using hm
        simp [hm2] at hf
      · have hm2 : g ∉ env.dirs := by simpa using hm
        simp [hm2, decideTargetDir] at hf
        exact cleanup_local_subset env files hcl f hf

/-- In cloud mode the cleanup step removes nothing. -/
theorem deletedOf_cloud (env : Env) (folder : Option String)
    (files : List String) (hc : env.isCloud = true) :
    deletedOf env folder files = [] := by
  simp [deletedOf, hc]

/-- When the requested folder is an existing directory, the cleanup step
removes nothing. -/
theorem deletedOf_validFolder (env : Env) (g : String) (files : List String)
    (hm : env.dirs.contains g = true) :
    deletedOf env (some g) files = [] := by
  unfold deletedOf
  cases hcl : env.isCloud with
  | true => simp [hcl]
  | false =>
    have hm2 : g ∈ env.dirs := by simpa using hm
    simp [hcl, hm2]

/-- C9: the cleanup step only ever deletes files directly inside the local
`temp_downloads` folder; in cloud mode it removes nothing, and when the
target directory is an existing user-selected folder it removes nothing,
so files in `/tmp` and in user-selected folders are untouched. -/
theorem claim_C9_cleanup_frame (env : Env)
    (extract : String → YdlOpts → ExtractResult) (url op ty : String)
    (q : Option Nat) (folder : Option String) :
    (∀ f ∈ (download_content env extract url op ty q folder).deleted,
      dirName f = "temp_downloads") ∧
    (env.isCloud = true →
      (download_content env extract url op ty q folder).deleted = []) ∧
    (∀ g, folder = some g → env.dirs.contains g = true →
      (download_content env extract url op ty q folder).deleted = []) := by
  cases hcf : check_ffmpeg env with
  | none => refine ⟨?_, ?_, ?_⟩ <;> simp [download_content, hcf]
  | some fp =>
    have hred : (download_content env extract url op ty q folder).deleted =
        deletedOf env folder
          (match extract url (buildYdlOpts
              (decideTargetDir env.isCloud folder env.dirs) fp ty q) with
           | ExtractResult.ok (some f) => env.files ++ [f]
           | _ => env.files) := by
      simp only [download_content, hcf]
      cases extract url (buildYdlOpts
          (decideTargetDir env.isCloud folder env.dirs) fp ty q) with
      | err m => rfl
      | ok df =>
        cases df with
        | none => rfl
        | some f => rfl
    refine ⟨?_, ?_, ?_⟩
    · rw [hred]
      exact deletedOf_subset env folder _
    · intro hc
      rw [hred]
      exact deletedOf_cloud env folder _ hc
    · intro g hg hm
      rw [hred, hg]
      exact deletedOf_validFolder env g _ hm

/-- Witness for C9: a cloud request and a local request into an existing
user-selected folder, each removing nothing. -/
theorem claim_C9_witness :
    (download_content ⟨true, "Linux", true, "/app", "/root", ["/tmp/a.mp4"], ["/tmp"]⟩
      (fun _ _ => ExtractResult.ok none) "https://example/video"
      "temp_downloads" "video" none none).deleted = [] ∧
    (download_content ⟨false, "Linux", true, "/app", "/root", ["home/d/a.mp4"], ["home/d"]⟩
      (fun _ _ => ExtractResult.ok none) "https://example/video"
      "temp_downloads" "video" none (some "home/d")).deleted = [] :=
  ⟨(claim_C9_cleanup_frame ⟨true, "Linux", true, "/app", "/root", ["/tmp/a.mp4"], ["/tmp"]⟩
      (fun _ _ => ExtractResult.ok none) "https://example/video"
      "temp_downloads" "video" none none).2.1 rfl,
   (claim_C9_cleanup_frame ⟨false, "Linux", true, "/app", "/root", ["home/d/a.mp4"], ["home/d"]⟩
      (fun _ _ => ExtractResult.ok none) "https://example/video"
      "temp_downloads" "video" none (some "home/d")).2.2 "home/d" rfl rfl⟩

/-- Witness for C7: a non-access-denied failure on the first identity, and
an extraction library that always raises the same error, on a local Linux
host with ffmpeg on the PATH. -/
theorem claim_C7_witness :
    runWithFallback (fun _ => AttemptOutcome.otherError "Video unavailable")
      ["ios"] =
      ({ success := false, path := none,
         errorText := some "Video unavailable" }, 1) ∧
    (download_content ⟨false, "Linux", true, "/app", "/root", [], []⟩
      (fun _ _ => ExtractResult.err "Video unavailable")
      "https://example/video" "temp_downloads" "video" none none).success =
      false ∧
    (download_content ⟨false, "Linux", true, "/app", "/root", [], []⟩
      (fun _ _ => ExtractResult.err "Video unavailable")
      "https://example/video" "temp_downloads" "video" none none).attempts =
      1 ∧
    (download_content ⟨false, "Linux", true, "/app", "/root", [], []⟩
      (fun _ _ => ExtractResult.err "Video unavailable")
      "https://example/video" "temp_downloads" "video" none none).errors =
      ["Download failed: " ++ "Video unavailable"] :=
  claim_C7_other_error_single_attempt
    (fun _ => AttemptOutcome.otherError "Video unavailable") "ios" [] "Video unavailable"
    rfl ⟨false, "Linux", true, "/app", "/root", [], []⟩
    (fun _ _ => ExtractResult.err "Video unavailable")
    "https://example/video" "temp_downloads" "video" none none
    "ffmpeg" rfl (fun _ _ => rfl)

end YTApp
